import Mathlib

/-!
Verification of the cost-estimation core of a document-database design
estimator: the recursive schema sizer (sizer.py) and the operator cost
model (operators.py), embedded shallowly. Python numbers are modelled by
Rat (exact arithmetic); fallible code (dict lookups that may raise
KeyError, the unknown-schema-type ValueError) returns Except.
-/

deriving instance DecidableEq for Except

/-! ### Constants (constants.py) -/

def INT_B : Nat := 8
def NUMBER_B : Nat := 8
def STRING_B : Nat := 80
def DATE_B : Nat := 20
def LONGSTRING_B : Nat := 200
def KV_OVERHEAD_B : Nat := 12

/-- Infra record from constants.py: cluster node count (default 1000). -/
structure Infra where
  SERVERS : Nat
deriving DecidableEq

def defaultInfra : Infra := ⟨1000⟩

/-- Stats record from constants.py: dataset-wide cardinalities. -/
structure Stats where
  N_CLIENTS : Nat
  N_PRODUCTS : Nat
  N_ORDERLINES : Nat
  N_WAREHOUSES : Nat
  N_BRANDS : Nat
  N_APPLE_PRODUCTS : Nat
  /-- Modelled from the spec: operators.py reads stats.AVG_PRODUCTS_PER_CLIENT
  (the average-products-bought-per-client statistic) but the Stats dataclass in
  constants.py under src does not declare it; the spec describes it only as a
  statistic, so it is kept abstract here. -/
  AVG_PRODUCTS_PER_CLIENT : Rat
deriving DecidableEq

/-- Derived stock cardinality: one stock instance per (product, warehouse). -/
def Stats.N_STOCK (s : Stats) : Nat := s.N_PRODUCTS * s.N_WAREHOUSES

/-- The default Stats() values from constants.py; the
AVG_PRODUCTS_PER_CLIENT statistic has no value in src, so it stays a
parameter. -/
def defaultStats (avg : Rat) : Stats :=
  { N_CLIENTS := 10000000
    N_PRODUCTS := 100000
    N_ORDERLINES := 4000000000
    N_WAREHOUSES := 200
    N_BRANDS := 5000
    N_APPLE_PRODUCTS := 50
    AVG_PRODUCTS_PER_CLIENT := avg }

/-- Modelled from the spec: operators.py imports READ_BW_BPS,
NETWORK_LATENCY_S, CARBON_PER_GB and PRICE_PER_GB from app.constants, but
constants.py under src does not define them; the spec (section 4.5) calls
them fixed configuration values shared by all operators without giving
numbers, so they are modelled as an abstract configuration record. -/
structure CostConfig where
  READ_BW_BPS : Rat
  NETWORK_LATENCY_S : Rat
  CARBON_PER_GB : Rat
  PRICE_PER_GB : Rat
deriving DecidableEq

/-! ### Schema trees (the dict fixtures consumed by sizer.py) -/

mutual
/-- A schema node as sizer.py reads it: a dict whose type tag is either a
primitive name (any string that is not object/array), the object tag with a
fields dict, or the array tag with an items schema and an avg_len. -/
inductive Schema where
  | prim (typ : String)
  | obj (fields : Fields)
  | arr (avg_len : Nat) (items : Schema)

/-- The ordered fields dict of an object schema node. -/
inductive Fields where
  | nil
  | cons (name : String) (s : Schema) (rest : Fields)
end

/-- dict.get on an object node's fields (first binding wins). -/
def Fields.find : Fields → String → Option Schema
  | .nil, _ => none
  | .cons k s rest, f => if k = f then some s else rest.find f

/-- The declared field schemas, in declaration order. -/
def Fields.schemas : Fields → List Schema
  | .nil => []
  | .cons _ s rest => s :: rest.schemas

/-! ### sizer.py -/

/-- PRIM_SIZE map from sizer.py. -/
def PRIM_SIZE (t : String) : Option Nat :=
  if t = "int" then some INT_B
  else if t = "number" then some NUMBER_B
  else if t = "string" then some STRING_B
  else if t = "longstring" then some LONGSTRING_B
  else if t = "date" then some DATE_B
  else none

mutual
/-- _size_of_schema from sizer.py: recursive average document size in bytes.
An unknown type tag raises ValueError, modelled as Except.error. -/
def _size_of_schema : Schema → Except String Nat
  | .prim t =>
    match PRIM_SIZE t with
    | some w => .ok (KV_OVERHEAD_B + w)
    | none => .error ("Unknown schema type: " ++ t)
  | .obj fields => _size_of_fields fields
  | .arr avg_len items =>
    match _size_of_schema items with
    | .error e => .error e
    | .ok item_size => .ok (KV_OVERHEAD_B + avg_len * item_size)

/-- The running total accumulated over an object node's fields in
_size_of_schema (total += _size_of_schema(sub) for each declared field). -/
def _size_of_fields : Fields → Except String Nat
  | .nil => .ok 0
  | .cons _ s rest =>
    match _size_of_schema s with
    | .error e => .error e
    | .ok a =>
      match _size_of_fields rest with
      | .error e => .error e
      | .ok b => .ok (a + b)
end

/-- collection_cardinality from sizer.py. -/
def collection_cardinality (name : String) (stats : Stats) : Nat :=
  if name = "Product" then stats.N_PRODUCTS
  else if name = "Stock" then stats.N_STOCK
  else if name = "Warehouse" then stats.N_WAREHOUSES
  else if name = "OrderLine" then stats.N_ORDERLINES
  else if name = "Client" then stats.N_CLIENTS
  else 0

/-- doc_size_bytes from sizer.py: public wrapper of _size_of_schema. -/
def doc_size_bytes (schema : Schema) : Except String Nat :=
  _size_of_schema schema

/-- The running total of projection_size: for each requested name, add
doc_size_bytes of the field when the fields dict has it, else skip it. -/
def _projection_total (fs : Fields) : List String → Except String Nat
  | [] => .ok 0
  | f :: rest =>
    match fs.find f with
    | some sub =>
      match doc_size_bytes sub with
      | .error e => .error e
      | .ok a =>
        match _projection_total fs rest with
        | .error e => .error e
        | .ok b => .ok (a + b)
    | none => _projection_total fs rest

/-- projection_size from sizer.py: sum of the requested top-level fields,
falling back to the full document size when the total is zero or the schema
is not an object. -/
def projection_size (schema : Schema) (fields : List String) : Except String Nat :=
  match schema with
  | .obj fs =>
    match _projection_total fs fields with
    | .error e => .error e
    | .ok total => if total > 0 then .ok total else doc_size_bytes schema
  | _ => doc_size_bytes schema

example : _size_of_schema (.prim "int") = .ok 20 := by decide
example : _size_of_schema (.prim "bogus") = .error "Unknown schema type: bogus" := by decide
example : _size_of_schema (.obj (.cons "a" (.prim "int") (.cons "b" (.prim "date") .nil))) = .ok 52 := by decide
example : _size_of_schema (.arr 3 (.prim "int")) = .ok 72 := by decide
example : projection_size (.obj (.cons "a" (.prim "int") (.cons "b" (.prim "date") .nil))) ["b"] = .ok 32 := by decide
example : projection_size (.obj (.cons "a" (.prim "int") .nil)) ["zz"] = .ok 20 := by decide

/-! ### operators.py -/

/-- DBLayout from schemas.py: collection name to schema tree. -/
structure DBLayout where
  collections : List (String × Schema)

/-- layout.collections[name]: a Python dict subscript, raising KeyError when
the collection is absent from the layout. -/
def getColl (layout : DBLayout) (name : String) : Except String Schema :=
  match layout.collections.lookup name with
  | some s => .ok s
  | none => .error ("KeyError: " ++ name)

/-- OperatorCost from operators.py. -/
structure OperatorCost where
  name : String
  output_docs : Rat
  output_size_bytes : Rat
  scanned_bytes : Rat
  shards_touched : Nat
  time_s : Rat
  carbon_kg : Rat
  price_usd : Rat
deriving DecidableEq

/-- _costs_from_scan from operators.py: scanned volume + fan-out to
time/carbon/price. -/
def _costs_from_scan (cfg : CostConfig) (scanned_bytes : Rat)
    (shards_touched parallelism : Nat) : Rat × Rat × Rat :=
  let time_s := scanned_bytes / ((max parallelism 1 : Nat) : Rat) / cfg.READ_BW_BPS
    + (shards_touched : Rat) * cfg.NETWORK_LATENCY_S
  let carbon := scanned_bytes / ((1024 ^ 3 : Nat) : Rat) * cfg.CARBON_PER_GB
  let price := scanned_bytes / ((1024 ^ 3 : Nat) : Rat) * cfg.PRICE_PER_GB
  (time_s, carbon, price)

/-- str.lower() as used by operators.py, modelled as a character map
(identical to Python lower() on the ASCII strings involved). -/
def py_lower (s : String) : String := ⟨s.data.map Char.toLower⟩

/-- selectivity_for from operators.py. The value argument is optional; the
Python truthiness test (value and value.lower() == "apple") is modelled on
the Option, with the empty string explicitly falsy. -/
def selectivity_for (_collection : String) (key : String) (stats : Stats)
    (value : Option String) : Rat :=
  if key = "IDP" then 1 / (stats.N_PRODUCTS : Rat)
  else if key = "IDW" then 1 / (stats.N_WAREHOUSES : Rat)
  else if key = "IDC" then 1 / (stats.N_CLIENTS : Rat)
  else if key = "brand" then
    match value with
    | some v =>
      if v ≠ "" ∧ py_lower v = "apple" then (stats.N_APPLE_PRODUCTS : Rat) / (stats.N_PRODUCTS : Rat)
      else 1 / (stats.N_BRANDS : Rat)
    | none => 1 / (stats.N_BRANDS : Rat)
  else if key = "date" then 1 / 365
  else 1 / 100

/-- Python "projected_fields or default": None and the empty list are falsy
and give the default. -/
def or_default (fields : Option (List String)) (d : List String) : List String :=
  match fields with
  | some (f :: fs) => f :: fs
  | _ => d

/-- The arithmetic of filter_operator, once the schema lookups of the
collection have succeeded with document size doc_sz and projected size
proj_sz (operators.py lines 77-104). -/
def filter_core (cfg : CostConfig) (stats : Stats) (infra : Infra)
    (collection : String) (selectivity : Rat) (sharded shard_aware indexed : Bool)
    (doc_sz proj_sz : Nat) : OperatorCost :=
  let total_docs := collection_cardinality collection stats
  let docs_per_shard : Rat :=
    if sharded then (total_docs : Rat) / (infra.SERVERS : Rat) else (total_docs : Rat)
  let shards_touched : Nat :=
    if sharded && shard_aware then 1 else if sharded then infra.SERVERS else 1
  let scope_docs : Rat :=
    if sharded then docs_per_shard * (shards_touched : Rat) else (total_docs : Rat)
  let raw_matched : Rat := (total_docs : Rat) * selectivity
  let matched_docs : Rat := if selectivity > 0 then max raw_matched 1 else 0
  let scanned0 : Rat := if indexed then scope_docs * selectivity else scope_docs
  let scanned1 : Rat := max scanned0 matched_docs
  let docs_scanned : Rat := if selectivity > 0 then max scanned1 1 else 0
  let scanned_bytes : Rat := docs_scanned * (doc_sz : Rat)
  let output_size : Rat := matched_docs * (proj_sz : Rat)
  let parallelism : Nat := if sharded then shards_touched else 1
  let tcp := _costs_from_scan cfg scanned_bytes shards_touched parallelism
  { name := if sharded then "filter_sharded" else "filter_no_shard"
    output_docs := matched_docs
    output_size_bytes := output_size
    scanned_bytes := scanned_bytes
    shards_touched := shards_touched
    time_s := tcp.1
    carbon_kg := tcp.2.1
    price_usd := tcp.2.2 }

/-- filter_operator from operators.py. -/
def filter_operator (cfg : CostConfig) (layout : DBLayout) (stats : Stats)
    (infra : Infra) (collection : String) (_filter_key : String)
    (selectivity : Rat) (projected_fields : Option (List String))
    (sharded shard_aware indexed : Bool) : Except String OperatorCost :=
  match getColl layout collection with
  | .error e => .error e
  | .ok schema =>
    match doc_size_bytes schema with
    | .error e => .error e
    | .ok doc_sz =>
      match projection_size schema (or_default projected_fields []) with
      | .error e => .error e
      | .ok proj_sz =>
        .ok (filter_core cfg stats infra collection selectivity sharded shard_aware indexed
          doc_sz proj_sz)

/-- _join_multiplicity from operators.py: hard-coded fan-out per
(outer, inner, join key), defaulting to 1. -/
def _join_multiplicity (outer inner join_key : String) (stats : Stats) : Nat :=
  if outer = "Stock" ∧ inner = "Product" ∧ join_key = "IDP" then 1
  else if outer = "Product" ∧ inner = "Stock" ∧ join_key = "IDP" then stats.N_WAREHOUSES
  else if outer = "OrderLine" ∧ inner = "Product" ∧ join_key = "IDP" then 1
  else if outer = "Product" ∧ inner = "OrderLine" ∧ join_key = "IDP" then
    stats.N_ORDERLINES / stats.N_PRODUCTS
  else 1

/-- The arithmetic of nested_loop_join, once the outer filter has produced
outer_cost and the inner/outer schema lookups have succeeded
(operators.py lines 148-169). -/
def join_core (cfg : CostConfig) (stats : Stats) (infra : Infra)
    (outer_collection inner_collection join_key : String)
    (sharded shard_aligned : Bool) (outer_cost : OperatorCost)
    (inner_doc_sz inner_proj_sz outer_proj_sz : Nat) : OperatorCost :=
  let outer_docs := outer_cost.output_docs
  let matches_per_outer := _join_multiplicity outer_collection inner_collection join_key stats
  let inner_hits : Rat := outer_docs * (matches_per_outer : Rat)
  let shards_touched : Nat :=
    if !sharded then 1 else if shard_aligned then 1 else infra.SERVERS
  let scanned_bytes : Rat := outer_cost.scanned_bytes + inner_hits * (inner_doc_sz : Rat)
  let output_size : Rat := inner_hits * ((outer_proj_sz : Rat) + (inner_proj_sz : Rat))
  let parallelism : Nat := if sharded then shards_touched else 1
  let tcp := _costs_from_scan cfg scanned_bytes shards_touched parallelism
  { name := if sharded then "nested_loop_sharded" else "nested_loop_no_shard"
    output_docs := inner_hits
    output_size_bytes := output_size
    scanned_bytes := scanned_bytes
    shards_touched := shards_touched
    time_s := tcp.1
    carbon_kg := tcp.2.1
    price_usd := tcp.2.2 }

/-- nested_loop_join from operators.py: outer filtered first (always
indexed, shard awareness from shard_aligned), then the inner probed with
the fixed multiplicity. -/
def nested_loop_join (cfg : CostConfig) (layout : DBLayout) (stats : Stats)
    (infra : Infra) (outer_collection inner_collection join_key outer_filter_key : String)
    (outer_selectivity : Rat) (outer_projected inner_projected : Option (List String))
    (sharded shard_aligned : Bool) : Except String OperatorCost :=
  match filter_operator cfg layout stats infra outer_collection outer_filter_key
      outer_selectivity outer_projected sharded shard_aligned true with
  | .error e => .error e
  | .ok outer_cost =>
    match getColl layout inner_collection with
    | .error e => .error e
    | .ok inner_schema =>
      match doc_size_bytes inner_schema with
      | .error e => .error e
      | .ok inner_doc_sz =>
        match projection_size inner_schema (or_default inner_projected []) with
        | .error e => .error e
        | .ok inner_proj_sz =>
          match getColl layout outer_collection with
          | .error e => .error e
          | .ok outer_schema =>
            match projection_size outer_schema (or_default outer_projected []) with
            | .error e => .error e
            | .ok outer_proj_sz =>
              .ok (join_core cfg stats infra outer_collection inner_collection join_key
                sharded shard_aligned outer_cost inner_doc_sz inner_proj_sz outer_proj_sz)

/-- _distinct_for_group from operators.py: fixed lookup of distinct group
counts, tailored to the aggregate queries. -/
def _distinct_for_group (collection : String) (group_keys : List String)
    (stats : Stats) (filtered_docs : Rat) (filter_key : Option String) : Rat :=
  if collection = "OrderLine" ∧ group_keys = ["IDP"] then
    if filter_key = some "IDC" then stats.AVG_PRODUCTS_PER_CLIENT
    else (stats.N_PRODUCTS : Rat)
  else if collection = "OrderLine" ∧ group_keys = ["IDC"] then (stats.N_CLIENTS : Rat)
  else filtered_docs

/-- The arithmetic of aggregate_operator, once the collection's schema
lookups have succeeded (operators.py lines 194-234). -/
def aggregate_core (cfg : CostConfig) (stats : Stats) (infra : Infra)
    (collection : String) (group_keys : List String) (sharded shard_aligned : Bool)
    (filter_key : Option String) (filter_selectivity : Rat)
    (doc_sz proj_sz : Nat) : OperatorCost :=
  let total_docs := collection_cardinality collection stats
  let input_docs : Rat := (total_docs : Rat) * filter_selectivity
  let shards_touched : Nat := if sharded then infra.SERVERS else 1
  let scanned_bytes : Rat := input_docs * (doc_sz : Rat)
  let parallelism : Nat := if sharded then shards_touched else 1
  let latency_scope : Nat := if sharded && shard_aligned then 1 else shards_touched
  let tcp := _costs_from_scan cfg scanned_bytes
    (if sharded then latency_scope else 1) parallelism
  let distinct_groups := _distinct_for_group collection group_keys stats input_docs filter_key
  let agg_payload := KV_OVERHEAD_B + INT_B
  let output_size : Rat := distinct_groups * ((proj_sz : Rat) + (agg_payload : Rat))
  { name := if sharded then "aggregate_sharded" else "aggregate_no_shard"
    output_docs := distinct_groups
    output_size_bytes := output_size
    scanned_bytes := scanned_bytes
    shards_touched := if sharded then shards_touched else 1
    time_s := tcp.1
    carbon_kg := tcp.2.1
    price_usd := tcp.2.2 }

/-- aggregate_operator from operators.py. -/
def aggregate_operator (cfg : CostConfig) (layout : DBLayout) (stats : Stats)
    (infra : Infra) (collection : String) (group_keys : List String)
    (projected_fields : Option (List String)) (sharded shard_aligned : Bool)
    (filter_key : Option String) (filter_selectivity : Rat) : Except String OperatorCost :=
  match getColl layout collection with
  | .error e => .error e
  | .ok schema =>
    match doc_size_bytes schema with
    | .error e => .error e
    | .ok doc_sz =>
      match projection_size schema (or_default projected_fields group_keys) with
      | .error e => .error e
      | .ok proj_sz =>
        .ok (aggregate_core cfg stats infra collection group_keys sharded shard_aligned
          filter_key filter_selectivity doc_sz proj_sz)

/-! ### Concrete fixtures for witnesses and counterexamples -/

def cfgW : CostConfig := ⟨1, 1, 1, 1⟩

def statsW : Stats := ⟨10, 4, 6, 3, 5, 2, 7⟩

def infraW : Infra := ⟨2⟩

def layoutW : DBLayout :=
  ⟨[("Client", .prim "int"), ("OrderLine", .prim "date"), ("Product", .prim "int"),
    ("Stock", .prim "int"), ("Mystery", .prim "int")]⟩

def cfgX : CostConfig := ⟨1, 1, 1, 1⟩

def statsX : Stats := ⟨1, 1, 1, 1, 1, 1, 1⟩

def infraX : Infra := ⟨1000⟩

def layoutX : DBLayout := ⟨[("OrderLine", .prim "int")]⟩

def c1xCost : OperatorCost :=
  ⟨"aggregate_sharded", 1, 40, 20, 1000, 51/50, 5/268435456, 5/268435456⟩

def filterW7 : OperatorCost :=
  ⟨"filter_no_shard", 5, 100, 200, 1, 201, 25/134217728, 25/134217728⟩

def filterW8a : OperatorCost := ⟨"filter_sharded", 0, 0, 0, 2, 2, 0, 0⟩

def filterW8b : OperatorCost :=
  ⟨"filter_sharded", 10, 200, 200, 2, 102, 25/134217728, 25/134217728⟩

def filterW10 : OperatorCost :=
  ⟨"filter_no_shard", 1, 20, 20, 1, 21, 5/268435456, 5/268435456⟩

def aggW4 : OperatorCost :=
  ⟨"aggregate_no_shard", 4, 208, 192, 1, 193, 3/16777216, 3/16777216⟩

def filterW5 : OperatorCost :=
  ⟨"filter_no_shard", 4, 80, 80, 1, 81, 5/67108864, 5/67108864⟩

def joinW5 : OperatorCost :=
  ⟨"nested_loop_no_shard", 12, 480, 320, 1, 321, 5/16777216, 5/16777216⟩

/-! ### Helper lemmas -/

/-- The per-element sizes of a list of schemas, with the first failure
propagated: the reference point for the object and projection sums. -/
def sizes_of_list : List Schema → Except String (List Nat)
  | [] => .ok []
  | s :: rest =>
    match _size_of_schema s with
    | .error e => .error e
    | .ok a =>
      match sizes_of_list rest with
      | .error e => .error e
      | .ok b => .ok (a :: b)

theorem _size_of_fields_spec : ∀ (fs : Fields) (ns : List Nat),
    sizes_of_list fs.schemas = .ok ns → _size_of_fields fs = .ok ns.sum
  | .nil, ns, h => by
    simp [Fields.schemas, sizes_of_list] at h
    subst h
    simp [_size_of_fields]
  | .cons k s rest, ns, h => by
    simp only [Fields.schemas, sizes_of_list] at h
    cases ha : _size_of_schema s with
    | error e => rw [ha] at h; simp at h
    | ok a =>
      rw [ha] at h
      cases hr : sizes_of_list rest.schemas with
      | error e => rw [hr] at h; simp at h
      | ok ns2 =>
        rw [hr] at h
        simp at h
        subst h
        simp [_size_of_fields, ha, _size_of_fields_spec rest ns2 hr]

theorem _projection_total_spec (fs : Fields) : ∀ (names : List String) (ns : List Nat),
    sizes_of_list (names.filterMap fs.find) = .ok ns →
    _projection_total fs names = .ok ns.sum
  | [], ns, h => by
    simp [sizes_of_list] at h
    subst h
    simp [_projection_total]
  | f :: rest, ns, h => by
    cases hf : fs.find f with
    | none =>
      simp only [List.filterMap_cons, hf] at h
      simp [_projection_total, hf, _projection_total_spec fs rest ns h]
    | some sub =>
      simp only [List.filterMap_cons, hf, sizes_of_list] at h
      cases ha : _size_of_schema sub with
      | error e => rw [ha] at h; simp at h
      | ok a =>
        rw [ha] at h
        cases hr : sizes_of_list (rest.filterMap fs.find) with
        | error e => rw [hr] at h; simp at h
        | ok ns2 =>
          rw [hr] at h
          simp at h
          subst h
          simp [_projection_total, hf, doc_size_bytes, ha,
            _projection_total_spec fs rest ns2 hr]

theorem filter_ok_elim {cfg : CostConfig} {layout : DBLayout} {stats : Stats}
    {infra : Infra} {coll fk : String} {s : Rat} {proj : Option (List String)}
    {sh aw idx : Bool} {cost : OperatorCost}
    (h : filter_operator cfg layout stats infra coll fk s proj sh aw idx = .ok cost) :
    ∃ schema doc_sz proj_sz,
      getColl layout coll = .ok schema ∧
      doc_size_bytes schema = .ok doc_sz ∧
      projection_size schema (or_default proj []) = .ok proj_sz ∧
      cost = filter_core cfg stats infra coll s sh aw idx doc_sz proj_sz := by
  unfold filter_operator at h
  split at h
  · cases h
  next schema hg =>
    split at h
    · cases h
    next doc_sz hd =>
      split at h
      · cases h
      next proj_sz hp =>
        exact ⟨schema, doc_sz, proj_sz, hg, hd, hp, (Except.ok.inj h).symm⟩

theorem aggregate_ok_elim {cfg : CostConfig} {layout : DBLayout} {stats : Stats}
    {infra : Infra} {coll : String} {gk : List String} {proj : Option (List String)}
    {sh al : Bool} {fk : Option String} {fsel : Rat} {cost : OperatorCost}
    (h : aggregate_operator cfg layout stats infra coll gk proj sh al fk fsel = .ok cost) :
    ∃ schema doc_sz proj_sz,
      getColl layout coll = .ok schema ∧
      doc_size_bytes schema = .ok doc_sz ∧
      projection_size schema (or_default proj gk) = .ok proj_sz ∧
      cost = aggregate_core cfg stats infra coll gk sh al fk fsel doc_sz proj_sz := by
  unfold aggregate_operator at h
  split at h
  · cases h
  next schema hg =>
    split at h
    · cases h
    next doc_sz hd =>
      split at h
      · cases h
      next proj_sz hp =>
        exact ⟨schema, doc_sz, proj_sz, hg, hd, hp, (Except.ok.inj h).symm⟩

theorem join_ok_elim {cfg : CostConfig} {layout : DBLayout} {stats : Stats}
    {infra : Infra} {oc ic jk ofk : String} {osel : Rat}
    {oproj iproj : Option (List String)} {sh al : Bool} {cost : OperatorCost}
    (h : nested_loop_join cfg layout stats infra oc ic jk ofk osel oproj iproj sh al = .ok cost) :
    ∃ outer_cost inner_schema inner_doc_sz inner_proj_sz outer_schema outer_proj_sz,
      filter_operator cfg layout stats infra oc ofk osel oproj sh al true = .ok outer_cost ∧
      getColl layout ic = .ok inner_schema ∧
      doc_size_bytes inner_schema = .ok inner_doc_sz ∧
      projection_size inner_schema (or_default iproj []) = .ok inner_proj_sz ∧
      getColl layout oc = .ok outer_schema ∧
      projection_size outer_schema (or_default oproj []) = .ok outer_proj_sz ∧
      cost = join_core cfg stats infra oc ic jk sh al outer_cost
        inner_doc_sz inner_proj_sz outer_proj_sz := by
  unfold nested_loop_join at h
  split at h
  · cases h
  next outer_cost hf =>
    split at h
    · cases h
    next inner_schema hg =>
      split at h
      · cases h
      next inner_doc_sz hd =>
        split at h
        · cases h
        next inner_proj_sz hp =>
          split at h
          · cases h
          next outer_schema hog =>
            split at h
            · cases h
            next outer_proj_sz hop =>
              exact ⟨outer_cost, inner_schema, inner_doc_sz, inner_proj_sz, outer_schema,
                outer_proj_sz, hf, hg, hd, hp, hog, hop, (Except.ok.inj h).symm⟩

/-! ### Claim theorems -/

/-- C2: the shared cost translation is a pure function of
(scanned_bytes, shards_touched, parallelism), returning
time_s = scanned_bytes / parallelism / READ_BW_BPS
  + shards_touched * NETWORK_LATENCY_S,
carbon_kg = scanned_bytes / 2^30 * CARBON_PER_GB and
price = scanned_bytes / 2^30 * PRICE_PER_GB, so identical inputs yield
identical outputs across all operator call sites. -/
theorem C2_cost_translation :
    (∀ (cfg : CostConfig) (sb : Rat) (st p : Nat), 1 ≤ p →
      _costs_from_scan cfg sb st p =
        (sb / (p : Rat) / cfg.READ_BW_BPS + (st : Rat) * cfg.NETWORK_LATENCY_S,
         sb / ((2 ^ 30 : Nat) : Rat) * cfg.CARBON_PER_GB,
         sb / ((2 ^ 30 : Nat) : Rat) * cfg.PRICE_PER_GB)) ∧
    (∀ (cfg : CostConfig) (sb1 : Rat) (st1 p1 : Nat) (sb2 : Rat) (st2 p2 : Nat),
      sb1 = sb2 → st1 = st2 → p1 = p2 →
      _costs_from_scan cfg sb1 st1 p1 = _costs_from_scan cfg sb2 st2 p2) := by
  constructor
  · intro cfg sb st p hp
    simp only [_costs_from_scan, Nat.max_eq_left hp]
    norm_num
  · intro cfg sb1 st1 p1 sb2 st2 p2 h1 h2 h3
    rw [h1, h2, h3]

/-- Witness for C2 at a concrete input. -/
theorem C2_witness :
    _costs_from_scan cfgW 2 3 4 =
      ((2 : Rat) / ((4 : Nat) : Rat) / cfgW.READ_BW_BPS
        + ((3 : Nat) : Rat) * cfgW.NETWORK_LATENCY_S,
       (2 : Rat) / ((2 ^ 30 : Nat) : Rat) * cfgW.CARBON_PER_GB,
       (2 : Rat) / ((2 ^ 30 : Nat) : Rat) * cfgW.PRICE_PER_GB) :=
  C2_cost_translation.1 cfgW 2 3 4 (by decide)

/-- C3: the recursive schema sizer gives a primitive node 12 bytes of
overhead plus its fixed width (integer/number 8, short string 80, date 20,
long string 200) — an int node sizes to exactly 20 —, an object node the
sum of the sizes of its declared fields, an array node
12 + avg_len * size of the item schema, and any node with another type tag
fails with an error. -/
theorem C3_schema_sizer :
    _size_of_schema (.prim "int") = .ok (12 + 8) ∧
    _size_of_schema (.prim "int") = .ok 20 ∧
    _size_of_schema (.prim "number") = .ok (12 + 8) ∧
    _size_of_schema (.prim "string") = .ok (12 + 80) ∧
    _size_of_schema (.prim "date") = .ok (12 + 20) ∧
    _size_of_schema (.prim "longstring") = .ok (12 + 200) ∧
    (∀ (fs : Fields) (ns : List Nat), sizes_of_list fs.schemas = .ok ns →
      _size_of_schema (.obj fs) = .ok ns.sum) ∧
    (∀ (n : Nat) (it : Schema) (s : Nat), _size_of_schema it = .ok s →
      _size_of_schema (.arr n it) = .ok (12 + n * s)) ∧
    (∀ t : String, t ≠ "int" → t ≠ "number" → t ≠ "string" → t ≠ "longstring" →
      t ≠ "date" → _size_of_schema (.prim t) = .error ("Unknown schema type: " ++ t)) := by
  refine ⟨by decide, by decide, by decide, by decide, by decide, by decide, ?_, ?_, ?_⟩
  · intro fs ns h
    simpa [_size_of_schema] using _size_of_fields_spec fs ns h
  · intro n it s h
    simp [_size_of_schema, h, KV_OVERHEAD_B]
  · intro t h1 h2 h3 h4 h5
    simp [_size_of_schema, PRIM_SIZE, h1, h2, h3, h4, h5, INT_B, NUMBER_B, STRING_B,
      LONGSTRING_B, DATE_B]

/-- Witness for C3 at concrete schemas. -/
theorem C3_witness :
    _size_of_schema (.obj (.cons "a" (.prim "int") (.cons "b" (.prim "date") .nil)))
      = .ok ([20, 32].sum) ∧
    _size_of_schema (.arr 5 (.prim "int")) = .ok (12 + 5 * 20) ∧
    _size_of_schema (.prim "weird") = .error ("Unknown schema type: " ++ "weird") :=
  ⟨C3_schema_sizer.2.2.2.2.2.2.1 (.cons "a" (.prim "int") (.cons "b" (.prim "date") .nil))
      [20, 32] (by decide),
   C3_schema_sizer.2.2.2.2.2.2.2.1 5 (.prim "int") 20 (by decide),
   C3_schema_sizer.2.2.2.2.2.2.2.2 "weird" (by decide) (by decide) (by decide) (by decide)
      (by decide)⟩

/-- C9: projection_size on an object schema sums sizes over only the
requested top-level field names, silently skipping names absent from the
schema, and returns the full document size whenever the requested list
contributes zero bytes. -/
theorem C9_projection :
    ∀ (fs : Fields) (names : List String) (ns : List Nat),
      sizes_of_list (names.filterMap fs.find) = .ok ns →
      (0 < ns.sum → projection_size (.obj fs) names = .ok ns.sum) ∧
      (ns.sum = 0 → projection_size (.obj fs) names = doc_size_bytes (.obj fs)) := by
  intro fs names ns h
  have ht := _projection_total_spec fs names ns h
  constructor
  · intro h0
    simp [projection_size, ht, h0]
  · intro h0
    rw [h0] at ht
    simp [projection_size, ht]

/-- Witness for C9: one projection that matches a field, one that matches
none and falls back to the full document size. -/
theorem C9_witness :
    (projection_size (.obj (.cons "a" (.prim "int") .nil)) ["a", "zz"] = .ok ([20].sum)) ∧
    (projection_size (.obj (.cons "a" (.prim "int") .nil)) ["zz"]
      = doc_size_bytes (.obj (.cons "a" (.prim "int") .nil))) :=
  ⟨(C9_projection (.cons "a" (.prim "int") .nil) ["a", "zz"] [20] (by decide)).1 (by decide),
   (C9_projection (.cons "a" (.prim "int") .nil) ["zz"] [] (by decide)).2 (by decide)⟩

/-- C7: every successful filter_operator call reports
output_docs = max(T * s, 1) when 0 < s <= 1 (T the collection's total
cardinality) and output_docs = 0 when s = 0. -/
theorem C7_filter_floor :
    ∀ (cfg : CostConfig) (layout : DBLayout) (stats : Stats) (infra : Infra)
      (coll fk : String) (s : Rat) (proj : Option (List String)) (sh aw idx : Bool)
      (cost : OperatorCost),
      s ≤ 1 →
      filter_operator cfg layout stats infra coll fk s proj sh aw idx = .ok cost →
      (0 < s → cost.output_docs = max (((collection_cardinality coll stats : Nat) : Rat) * s) 1) ∧
      (s = 0 → cost.output_docs = 0) := by
  intro cfg layout stats infra coll fk s proj sh aw idx cost hs1 h
  obtain ⟨schema, dsz, psz, hg, hd, hp, hc⟩ := filter_ok_elim h
  subst hc
  constructor
  · intro hs
    simp [filter_core, hs]
  · intro hs
    subst hs
    simp [filter_core]

/-- Witness for C7 at a concrete sub-unit selectivity. -/
theorem C7_witness :
    filterW7.output_docs
      = max (((collection_cardinality "Client" statsW : Nat) : Rat) * (1/2)) 1 := by
  have hcore : filter_core cfgW statsW infraW "Client" (1/2) false false false 20 20
      = filterW7 := by
    simp [filter_core, filterW7, _costs_from_scan, collection_cardinality, statsW,
      infraW, cfgW]
    norm_num [max_def]
  have h : filter_operator cfgW layoutW statsW infraW "Client" "IDC" (1/2) none
      false false false = .ok filterW7 := by
    rw [show filter_operator cfgW layoutW statsW infraW "Client" "IDC" (1/2) none
        false false false
      = .ok (filter_core cfgW statsW infraW "Client" (1/2) false false false 20 20) from rfl,
      hcore]
  exact (C7_filter_floor cfgW layoutW statsW infraW "Client" "IDC" (1/2) none false false
    false filterW7 (by norm_num) h).1 (by norm_num)

/-- C10: collection_cardinality is 0 on every name other than the five
known collections, and a filter on such a collection (present in the
layout) with positive selectivity still reports one output document and
scans exactly one full document. -/
theorem C10_unknown_collection :
    ∀ (cfg : CostConfig) (layout : DBLayout) (stats : Stats) (infra : Infra)
      (coll fk : String) (s : Rat) (proj : Option (List String)) (sh aw idx : Bool)
      (cost : OperatorCost) (schema : Schema) (dsz : Nat),
      coll ≠ "Product" → coll ≠ "Stock" → coll ≠ "Warehouse" → coll ≠ "OrderLine" →
      coll ≠ "Client" → 0 < s → 1 ≤ infra.SERVERS →
      filter_operator cfg layout stats infra coll fk s proj sh aw idx = .ok cost →
      getColl layout coll = .ok schema → doc_size_bytes schema = .ok dsz →
      collection_cardinality coll stats = 0 ∧ cost.output_docs = 1 ∧
        cost.scanned_bytes = (dsz : Rat) := by
  intro cfg layout stats infra coll fk s proj sh aw idx cost schema dsz
    h1 h2 h3 h4 h5 hs hS h hg hd
  have hcard : collection_cardinality coll stats = 0 := by
    simp [collection_cardinality, h1, h2, h3, h4, h5]
  obtain ⟨schema2, dsz2, psz2, hg2, hd2, hp2, hc⟩ := filter_ok_elim h
  obtain rfl : schema = schema2 := Except.ok.inj (hg.symm.trans hg2)
  obtain rfl : dsz = dsz2 := Except.ok.inj (hd.symm.trans hd2)
  subst hc
  refine ⟨hcard, ?_, ?_⟩
  · cases sh <;> cases aw <;> cases idx <;> simp [filter_core, hcard, hs]
  · cases sh <;> cases aw <;> cases idx <;> simp [filter_core, hcard, hs]

theorem scan_arith_mono (g T d p : Rat) (idx : Bool) (s1 s2 : Rat)
    (hg : 0 ≤ g) (hT : 0 ≤ T) (hd : 0 ≤ d) (hp : 0 ≤ p) (h0 : 0 ≤ s1) (h12 : s1 ≤ s2) :
    (if s1 > 0 then
        max (max (if idx then g * s1 else g) (if s1 > 0 then max (T * s1) 1 else 0)) 1
      else 0) * d ≤
    (if s2 > 0 then
        max (max (if idx then g * s2 else g) (if s2 > 0 then max (T * s2) 1 else 0)) 1
      else 0) * d ∧
    (if s1 > 0 then max (T * s1) 1 else 0) * p ≤
    (if s2 > 0 then max (T * s2) 1 else 0) * p := by
  by_cases hs1 : s1 > 0
  · have hs2 : s2 > 0 := lt_of_lt_of_le hs1 h12
    simp only [if_pos hs1, if_pos hs2]
    have hm : max (T * s1) 1 ≤ max (T * s2) 1 :=
      max_le_max (mul_le_mul_of_nonneg_left h12 hT) le_rfl
    have hsc : (if idx then g * s1 else g) ≤ (if idx then g * s2 else g) := by
      cases idx
      · simp
      · simpa using mul_le_mul_of_nonneg_left h12 hg
    exact ⟨mul_le_mul_of_nonneg_right (max_le_max (max_le_max hsc hm) le_rfl) hd,
      mul_le_mul_of_nonneg_right hm hp⟩
  · simp only [if_neg hs1, zero_mul]
    have h1 : (0 : Rat) ≤ (if s2 > 0 then
        max (max (if idx then g * s2 else g) (if s2 > 0 then max (T * s2) 1 else 0)) 1
      else 0) := by
      by_cases hs2 : s2 > 0
      · rw [if_pos hs2]
        exact le_trans zero_le_one (le_max_right _ 1)
      · rw [if_neg hs2]
    have h2 : (0 : Rat) ≤ (if s2 > 0 then max (T * s2) 1 else 0) := by
      by_cases hs2 : s2 > 0
      · rw [if_pos hs2]
        exact le_trans zero_le_one (le_max_right _ 1)
      · rw [if_neg hs2]
    exact ⟨mul_nonneg h1 hd, mul_nonneg h2 hp⟩

theorem filter_core_mono {cfg : CostConfig} {stats : Stats} {infra : Infra} {coll : String}
    {s1 s2 : Rat} {sh aw idx : Bool} {dsz psz : Nat}
    (h0 : 0 ≤ s1) (h12 : s1 ≤ s2) :
    (filter_core cfg stats infra coll s1 sh aw idx dsz psz).scanned_bytes ≤
      (filter_core cfg stats infra coll s2 sh aw idx dsz psz).scanned_bytes ∧
    (filter_core cfg stats infra coll s1 sh aw idx dsz psz).output_size_bytes ≤
      (filter_core cfg stats infra coll s2 sh aw idx dsz psz).output_size_bytes := by
  simp only [filter_core]
  refine scan_arith_mono _ _ _ _ idx s1 s2 ?_ (Nat.cast_nonneg _) (Nat.cast_nonneg _)
    (Nat.cast_nonneg _) h0 h12
  cases sh <;> cases aw <;> simp
  all_goals try positivity

/-- C8: for two filter_operator calls identical in everything but
selectivity, with 0 <= s1 <= s2 <= 1, the larger selectivity produces
scanned_bytes and output_size_bytes at least as large. -/
theorem C8_filter_monotone :
    ∀ (cfg : CostConfig) (layout : DBLayout) (stats : Stats) (infra : Infra)
      (coll fk : String) (proj : Option (List String)) (sh aw idx : Bool)
      (s1 s2 : Rat) (c1 c2 : OperatorCost),
      0 ≤ s1 → s1 ≤ s2 → s2 ≤ 1 → 1 ≤ infra.SERVERS →
      filter_operator cfg layout stats infra coll fk s1 proj sh aw idx = .ok c1 →
      filter_operator cfg layout stats infra coll fk s2 proj sh aw idx = .ok c2 →
      c1.scanned_bytes ≤ c2.scanned_bytes ∧
        c1.output_size_bytes ≤ c2.output_size_bytes := by
  intro cfg layout stats infra coll fk proj sh aw idx s1 s2 c1 c2 h0 h12 h21 hS h1 h2
  obtain ⟨sc1, d1, p1, hg1, hd1, hp1, hc1⟩ := filter_ok_elim h1
  obtain ⟨sc2, d2, p2, hg2, hd2, hp2, hc2⟩ := filter_ok_elim h2
  obtain rfl : sc1 = sc2 := Except.ok.inj (hg1.symm.trans hg2)
  obtain rfl : d1 = d2 := Except.ok.inj (hd1.symm.trans hd2)
  obtain rfl : p1 = p2 := Except.ok.inj (hp1.symm.trans hp2)
  subst hc1 hc2
  exact filter_core_mono h0 h12

/-- Witness for C8: selectivities 0 and 1 on a concrete sharded call. -/
theorem C8_witness :
    filterW8a.scanned_bytes ≤ filterW8b.scanned_bytes ∧
      filterW8a.output_size_bytes ≤ filterW8b.output_size_bytes := by
  have ha : filter_core cfgW statsW infraW "Client" 0 true false true 20 20
      = filterW8a := by
    simp [filter_core, filterW8a, _costs_from_scan, collection_cardinality, statsW,
      infraW, cfgW]
    try norm_num [max_def]
  have hb : filter_core cfgW statsW infraW "Client" 1 true false true 20 20
      = filterW8b := by
    simp [filter_core, filterW8b, _costs_from_scan, collection_cardinality, statsW,
      infraW, cfgW]
    norm_num [max_def]
  have h1 : filter_operator cfgW layoutW statsW infraW "Client" "IDC" 0 none
      true false true = .ok filterW8a := by
    rw [show filter_operator cfgW layoutW statsW infraW "Client" "IDC" 0 none true false true
      = .ok (filter_core cfgW statsW infraW "Client" 0 true false true 20 20) from rfl, ha]
  have h2 : filter_operator cfgW layoutW statsW infraW "Client" "IDC" 1 none
      true false true = .ok filterW8b := by
    rw [show filter_operator cfgW layoutW statsW infraW "Client" "IDC" 1 none true false true
      = .ok (filter_core cfgW statsW infraW "Client" 1 true false true 20 20) from rfl, hb]
  exact C8_filter_monotone cfgW layoutW statsW infraW "Client" "IDC" none true false true
    0 1 filterW8a filterW8b (by norm_num) (by norm_num) (by norm_num) (by decide) h1 h2

/-- C1 (amended): a sharded aggregate reports shards_touched equal to the
full cluster size and derives carbon/price from its scanned bytes via the
shared rule, but its time derivation passes a latency scope of 1 shard to
the shared rule when shard_aligned is true (and the full cluster when
false); an unsharded aggregate reports shards_touched = 1. -/
theorem C1_amended :
    ∀ (cfg : CostConfig) (layout : DBLayout) (stats : Stats) (infra : Infra)
      (coll : String) (gk : List String) (proj : Option (List String)) (al : Bool)
      (fk : Option String) (fsel : Rat),
      (∀ cost : OperatorCost,
        aggregate_operator cfg layout stats infra coll gk proj true al fk fsel = .ok cost →
        cost.shards_touched = infra.SERVERS ∧
        cost.carbon_kg = cost.scanned_bytes / ((1024 ^ 3 : Nat) : Rat) * cfg.CARBON_PER_GB ∧
        cost.price_usd = cost.scanned_bytes / ((1024 ^ 3 : Nat) : Rat) * cfg.PRICE_PER_GB ∧
        cost.time_s = cost.scanned_bytes / ((max infra.SERVERS 1 : Nat) : Rat)
            / cfg.READ_BW_BPS
          + (((if al then (1 : Nat) else infra.SERVERS)) : Rat) * cfg.NETWORK_LATENCY_S) ∧
      (∀ cost : OperatorCost,
        aggregate_operator cfg layout stats infra coll gk proj false al fk fsel = .ok cost →
        cost.shards_touched = 1) := by
  intro cfg layout stats infra coll gk proj al fk fsel
  constructor
  · intro cost h
    obtain ⟨schema, dsz, psz, hg, hd, hp, hc⟩ := aggregate_ok_elim h
    subst hc
    refine ⟨?_, ?_, ?_, ?_⟩ <;> cases al <;> simp [aggregate_core, _costs_from_scan]
  · intro cost h
    obtain ⟨schema, dsz, psz, hg, hd, hp, hc⟩ := aggregate_ok_elim h
    subst hc
    simp [aggregate_core]

/-- Counterexample for C1 as stated: a sharded, shard-aligned aggregate
whose reported shards_touched is the full cluster, yet whose
(time, carbon, price) triple differs from the shared cost translation
applied with the full-cluster shard count. -/
theorem C1_counterexample :
    aggregate_operator cfgX layoutX statsX infraX "OrderLine" ["IDP"] none true true none 1
      = .ok c1xCost ∧
    c1xCost.shards_touched = infraX.SERVERS ∧
    (c1xCost.time_s, c1xCost.carbon_kg, c1xCost.price_usd) ≠
      _costs_from_scan cfgX c1xCost.scanned_bytes infraX.SERVERS infraX.SERVERS := by
  refine ⟨?_, rfl, ?_⟩
  · rw [show aggregate_operator cfgX layoutX statsX infraX "OrderLine" ["IDP"] none true true
        none 1
      = .ok (aggregate_core cfgX statsX infraX "OrderLine" ["IDP"] true true none 1 20 20)
      from rfl]
    have hcore : aggregate_core cfgX statsX infraX "OrderLine" ["IDP"] true true none 1 20 20
        = c1xCost := by
      simp [aggregate_core, c1xCost, _costs_from_scan, _distinct_for_group,
        collection_cardinality, statsX, infraX, cfgX, KV_OVERHEAD_B, INT_B]
      try norm_num [max_def]
    rw [hcore]
  · simp [c1xCost, _costs_from_scan, infraX, cfgX]
    norm_num

/-- Witness for the amended C1 at a concrete sharded, shard-aligned call. -/
theorem C1_witness :
    c1xCost.shards_touched = infraX.SERVERS ∧
    c1xCost.time_s = c1xCost.scanned_bytes / ((max infraX.SERVERS 1 : Nat) : Rat)
        / cfgX.READ_BW_BPS
      + (((if true then (1 : Nat) else infraX.SERVERS)) : Rat) * cfgX.NETWORK_LATENCY_S := by
  have hcore : aggregate_core cfgX statsX infraX "OrderLine" ["IDP"] true true none 1 20 20
      = c1xCost := by
    simp [aggregate_core, c1xCost, _costs_from_scan, _distinct_for_group,
      collection_cardinality, statsX, infraX, cfgX, KV_OVERHEAD_B, INT_B]
    try norm_num [max_def]
  have hcall : aggregate_operator cfgX layoutX statsX infraX "OrderLine" ["IDP"] none true
      true none 1 = .ok c1xCost := by
    rw [show aggregate_operator cfgX layoutX statsX infraX "OrderLine" ["IDP"] none true true
        none 1
      = .ok (aggregate_core cfgX statsX infraX "OrderLine" ["IDP"] true true none 1 20 20)
      from rfl, hcore]
  have h := (C1_amended cfgX layoutX statsX infraX "OrderLine" ["IDP"] none true none 1).1
    c1xCost hcall
  exact ⟨h.1, h.2.2.2⟩

/-- C4: the aggregate operator's distinct output group count follows the
fixed lookup — OrderLine by [IDP] pre-filtered by IDC gives the
average-products-per-client statistic, OrderLine by [IDP] with no filter
key gives the product count (100000 under the default statistics),
OrderLine by [IDC] gives the client count, and every other
(collection, group-keys) combination yields one group per scanned input
document. -/
theorem C4_aggregate_groups :
    ∀ (cfg : CostConfig) (layout : DBLayout) (stats : Stats) (infra : Infra)
      (coll : String) (gk : List String) (proj : Option (List String)) (sh al : Bool)
      (fk : Option String) (fsel : Rat) (cost : OperatorCost),
      aggregate_operator cfg layout stats infra coll gk proj sh al fk fsel = .ok cost →
      ((coll = "OrderLine" ∧ gk = ["IDP"] ∧ fk = some "IDC") →
        cost.output_docs = stats.AVG_PRODUCTS_PER_CLIENT) ∧
      ((coll = "OrderLine" ∧ gk = ["IDP"] ∧ fk = none) →
        cost.output_docs = ((stats.N_PRODUCTS : Nat) : Rat)) ∧
      ((coll = "OrderLine" ∧ gk = ["IDC"]) →
        cost.output_docs = ((stats.N_CLIENTS : Nat) : Rat)) ∧
      ((¬(coll = "OrderLine" ∧ (gk = ["IDP"] ∨ gk = ["IDC"]))) →
        cost.output_docs = ((collection_cardinality coll stats : Nat) : Rat) * fsel) ∧
      (∀ a : Rat, (defaultStats a).N_PRODUCTS = 100000) := by
  intro cfg layout stats infra coll gk proj sh al fk fsel cost h
  obtain ⟨schema, dsz, psz, hg, hd, hp, hc⟩ := aggregate_ok_elim h
  subst hc
  refine ⟨?_, ?_, ?_, ?_, fun a => rfl⟩
  · rintro ⟨rfl, rfl, rfl⟩
    simp [aggregate_core, _distinct_for_group]
  · rintro ⟨rfl, rfl, rfl⟩
    simp [aggregate_core, _distinct_for_group]
  · rintro ⟨rfl, rfl⟩
    simp [aggregate_core, _distinct_for_group]
  · intro hn
    by_cases hc1 : coll = "OrderLine"
    · subst hc1
      have h1 : gk ≠ ["IDP"] := fun hgk => hn ⟨rfl, Or.inl hgk⟩
      have h2 : gk ≠ ["IDC"] := fun hgk => hn ⟨rfl, Or.inr hgk⟩
      simp [aggregate_core, _distinct_for_group, h1, h2]
    · simp [aggregate_core, _distinct_for_group, hc1]

/-- Witness for C4: OrderLine grouped by [IDP] with no filter key yields
exactly the product count. -/
theorem C4_witness :
    aggW4.output_docs = ((statsW.N_PRODUCTS : Nat) : Rat) := by
  have hcore : aggregate_core cfgW statsW infraW "OrderLine" ["IDP"] false false none 1 32 32
      = aggW4 := by
    simp [aggregate_core, aggW4, _costs_from_scan, _distinct_for_group,
      collection_cardinality, statsW, infraW, cfgW, KV_OVERHEAD_B, INT_B]
    try norm_num [max_def]
  have hcall : aggregate_operator cfgW layoutW statsW infraW "OrderLine" ["IDP"] none false
      false none 1 = .ok aggW4 := by
    rw [show aggregate_operator cfgW layoutW statsW infraW "OrderLine" ["IDP"] none false
        false none 1
      = .ok (aggregate_core cfgW statsW infraW "OrderLine" ["IDP"] false false none 1 32 32)
      from rfl, hcore]
  exact (C4_aggregate_groups cfgW layoutW statsW infraW "OrderLine" ["IDP"] none false false
    none 1 aggW4 hcall).2.1 ⟨rfl, rfl, rfl⟩

/-- C5: nested_loop_join reports output_docs equal to the outer filter's
matched count times the fixed multiplicity: 1 for (Stock, Product, IDP)
and (OrderLine, Product, IDP), N_WAREHOUSES for (Product, Stock, IDP),
N_ORDERLINES // N_PRODUCTS for (Product, OrderLine, IDP), and 1 for every
combination absent from the table. -/
theorem C5_join_multiplicity :
    ∀ (cfg : CostConfig) (layout : DBLayout) (stats : Stats) (infra : Infra)
      (out_c in_c jk ofk : String) (osel : Rat) (oproj iproj : Option (List String))
      (sh al : Bool) (cost oc : OperatorCost),
      nested_loop_join cfg layout stats infra out_c in_c jk ofk osel oproj iproj sh al
        = .ok cost →
      filter_operator cfg layout stats infra out_c ofk osel oproj sh al true = .ok oc →
      ((out_c = "Stock" ∧ in_c = "Product" ∧ jk = "IDP") →
        cost.output_docs = oc.output_docs * 1) ∧
      ((out_c = "OrderLine" ∧ in_c = "Product" ∧ jk = "IDP") →
        cost.output_docs = oc.output_docs * 1) ∧
      ((out_c = "Product" ∧ in_c = "Stock" ∧ jk = "IDP") →
        cost.output_docs = oc.output_docs * ((stats.N_WAREHOUSES : Nat) : Rat)) ∧
      ((out_c = "Product" ∧ in_c = "OrderLine" ∧ jk = "IDP") →
        cost.output_docs = oc.output_docs
          * ((stats.N_ORDERLINES / stats.N_PRODUCTS : Nat) : Rat)) ∧
      ((¬(out_c = "Stock" ∧ in_c = "Product" ∧ jk = "IDP") ∧
        ¬(out_c = "Product" ∧ in_c = "Stock" ∧ jk = "IDP") ∧
        ¬(out_c = "OrderLine" ∧ in_c = "Product" ∧ jk = "IDP") ∧
        ¬(out_c = "Product" ∧ in_c = "OrderLine" ∧ jk = "IDP")) →
        cost.output_docs = oc.output_docs * 1) := by
  intro cfg layout stats infra out_c in_c jk ofk osel oproj iproj sh al cost oc h hf
  obtain ⟨oc2, isch, idsz, ipsz, osch, opsz, hf2, hgi, hdi, hpi, hgo, hpo, hc⟩ :=
    join_ok_elim h
  obtain rfl : oc = oc2 := Except.ok.inj (hf.symm.trans hf2)
  subst hc
  refine ⟨?_, ?_, ?_, ?_, ?_⟩
  · rintro ⟨rfl, rfl, rfl⟩
    simp [join_core, _join_multiplicity]
  · rintro ⟨rfl, rfl, rfl⟩
    simp [join_core, _join_multiplicity]
  · rintro ⟨rfl, rfl, rfl⟩
    simp [join_core, _join_multiplicity]
  · rintro ⟨rfl, rfl, rfl⟩
    simp [join_core, _join_multiplicity]
  · rintro ⟨hn1, hn2, hn3, hn4⟩
    simp [join_core, _join_multiplicity, hn1, hn2, hn3, hn4]

/-- Witness for C5: a (Product, Stock, IDP) join at concrete inputs. -/
theorem C5_witness :
    joinW5.output_docs = filterW5.output_docs * ((statsW.N_WAREHOUSES : Nat) : Rat) := by
  have hfcore : filter_core cfgW statsW infraW "Product" 1 false false true 20 20
      = filterW5 := by
    simp [filter_core, filterW5, _costs_from_scan, collection_cardinality, statsW,
      infraW, cfgW]
    try norm_num [max_def]
  have hf : filter_operator cfgW layoutW statsW infraW "Product" "brand" 1 none
      false false true = .ok filterW5 := by
    rw [show filter_operator cfgW layoutW statsW infraW "Product" "brand" 1 none
        false false true
      = .ok (filter_core cfgW statsW infraW "Product" 1 false false true 20 20) from rfl,
      hfcore]
  have hjcore : join_core cfgW statsW infraW "Product" "Stock" "IDP" false false filterW5
      20 20 20 = joinW5 := by
    simp [join_core, joinW5, filterW5, _join_multiplicity, _costs_from_scan, statsW,
      infraW, cfgW]
    try norm_num [max_def]
  have hj : nested_loop_join cfgW layoutW statsW infraW "Product" "Stock" "IDP" "brand" 1
      none none false false = .ok joinW5 := by
    rw [show nested_loop_join cfgW layoutW statsW infraW "Product" "Stock" "IDP" "brand" 1
        none none false false
      = (match filter_operator cfgW layoutW statsW infraW "Product" "brand" 1 none
          false false true with
        | .error e => .error e
        | .ok outer_cost =>
          .ok (join_core cfgW statsW infraW "Product" "Stock" "IDP" false false outer_cost
            20 20 20)) from rfl]
    rw [hf]
    show Except.ok (join_core cfgW statsW infraW "Product" "Stock" "IDP" false false filterW5
      20 20 20) = Except.ok joinW5
    rw [hjcore]
  exact (C5_join_multiplicity cfgW layoutW statsW infraW "Product" "Stock" "IDP" "brand" 1
    none none false false joinW5 filterW5 hj hf).2.2.1 ⟨rfl, rfl, rfl⟩

theorem one_div_nat_mem_unit (n : Nat) (h : 1 ≤ n) :
    0 ≤ 1 / (n : Rat) ∧ 1 / (n : Rat) ≤ 1 := by
  have hp : (0 : Rat) < (n : Rat) := by exact_mod_cast Nat.lt_of_lt_of_le Nat.zero_lt_one h
  constructor
  · positivity
  · rw [div_le_one hp]
    exact_mod_cast h

/-- C6: the selectivity lookup returns 1/N_PRODUCTS for IDP,
1/N_WAREHOUSES for IDW, 1/N_CLIENTS for IDC; for brand it returns
N_APPLE_PRODUCTS/N_PRODUCTS (0.0005 under the default statistics) when the
value equals "apple" case-insensitively and 1/N_BRANDS otherwise; 1/365
for date; 0.01 for any other key; and every returned value lies in
[0, 1]. -/
theorem C6_selectivity :
    ∀ (stats : Stats) (coll : String) (value : Option String),
      1 ≤ stats.N_PRODUCTS → 1 ≤ stats.N_WAREHOUSES → 1 ≤ stats.N_CLIENTS →
      1 ≤ stats.N_BRANDS → stats.N_APPLE_PRODUCTS ≤ stats.N_PRODUCTS →
      (selectivity_for coll "IDP" stats value = 1 / ((stats.N_PRODUCTS : Nat) : Rat)) ∧
      (selectivity_for coll "IDW" stats value = 1 / ((stats.N_WAREHOUSES : Nat) : Rat)) ∧
      (selectivity_for coll "IDC" stats value = 1 / ((stats.N_CLIENTS : Nat) : Rat)) ∧
      (∀ v : String, py_lower v = "apple" →
        selectivity_for coll "brand" stats (some v)
          = ((stats.N_APPLE_PRODUCTS : Nat) : Rat) / ((stats.N_PRODUCTS : Nat) : Rat)) ∧
      (∀ v : String, py_lower v ≠ "apple" →
        selectivity_for coll "brand" stats (some v) = 1 / ((stats.N_BRANDS : Nat) : Rat)) ∧
      (selectivity_for coll "brand" stats none = 1 / ((stats.N_BRANDS : Nat) : Rat)) ∧
      (selectivity_for coll "date" stats value = 1 / 365) ∧
      (∀ key : String, key ≠ "IDP" → key ≠ "IDW" → key ≠ "IDC" → key ≠ "brand" →
        key ≠ "date" → selectivity_for coll key stats value = 1 / 100) ∧
      (∀ key : String, 0 ≤ selectivity_for coll key stats value ∧
        selectivity_for coll key stats value ≤ 1) ∧
      (∀ a : Rat, selectivity_for "Product" "brand" (defaultStats a) (some "Apple")
        = 0.0005) := by
  intro stats coll value hP hW hC hB hA
  have hPpos : (0 : Rat) < ((stats.N_PRODUCTS : Nat) : Rat) := by
    exact_mod_cast Nat.lt_of_lt_of_le Nat.zero_lt_one hP
  refine ⟨by simp [selectivity_for], by simp [selectivity_for], by simp [selectivity_for],
    ?_, ?_, by simp [selectivity_for], by simp [selectivity_for], ?_, ?_, ?_⟩
  · intro v hv
    have hv0 : v ≠ "" := by
      intro h0
      subst h0
      exact absurd hv (by decide)
    simp [selectivity_for, hv, hv0]
  · intro v hv
    simp [selectivity_for, hv]
  · intro key h1 h2 h3 h4 h5
    simp [selectivity_for, h1, h2, h3, h4, h5]
  · intro key
    by_cases h1 : key = "IDP"
    · subst h1
      simpa [selectivity_for] using one_div_nat_mem_unit _ hP
    by_cases h2 : key = "IDW"
    · subst h2
      simpa [selectivity_for] using one_div_nat_mem_unit _ hW
    by_cases h3 : key = "IDC"
    · subst h3
      simpa [selectivity_for] using one_div_nat_mem_unit _ hC
    by_cases h4 : key = "brand"
    · subst h4
      cases value with
      | none => simpa [selectivity_for] using one_div_nat_mem_unit _ hB
      | some v =>
        by_cases hv : v ≠ "" ∧ py_lower v = "apple"
        · have := hv.1
          have h2 := hv.2
          simp only [selectivity_for, if_neg (by decide : ¬("brand" = "IDP")),
            if_neg (by decide : ¬("brand" = "IDW")), if_neg (by decide : ¬("brand" = "IDC")),
            if_pos rfl, if_pos hv, if_true]
          constructor
          · positivity
          · rw [div_le_one hPpos]
            exact_mod_cast hA
        · simpa [selectivity_for, hv] using one_div_nat_mem_unit _ hB
    by_cases h5 : key = "date"
    · subst h5
      constructor <;> simp [selectivity_for] <;> norm_num
    · constructor <;> simp [selectivity_for, h1, h2, h3, h4, h5] <;> norm_num
  · intro a
    simp [selectivity_for, defaultStats, show py_lower "Apple" = "apple" from by decide,
      show ("Apple" : String) ≠ "" from by decide]
    norm_num

/-- Witness for C6: the Apple-brand filter under the default statistics. -/
theorem C6_witness :
    selectivity_for "Product" "brand" (defaultStats 0) (some "Apple") = 0.0005 :=
  (C6_selectivity (defaultStats 0) "Product" (some "Apple") (by decide) (by decide)
    (by decide) (by decide) (by decide)).2.2.2.2.2.2.2.2.2 0

/-- Witness for C10: a filter over the unknown collection Mystery. -/
theorem C10_witness :
    collection_cardinality "Mystery" statsW = 0 ∧ filterW10.output_docs = 1 ∧
      filterW10.scanned_bytes = ((20 : Nat) : Rat) := by
  have hcore : filter_core cfgW statsW infraW "Mystery" (1/2) false false false 20 20
      = filterW10 := by
    simp [filter_core, filterW10, _costs_from_scan, collection_cardinality, statsW,
      infraW, cfgW]
    try norm_num [max_def]
  have hcall : filter_operator cfgW layoutW statsW infraW "Mystery" "k" (1/2) none
      false false false = .ok filterW10 := by
    rw [show filter_operator cfgW layoutW statsW infraW "Mystery" "k" (1/2) none
        false false false
      = .ok (filter_core cfgW statsW infraW "Mystery" (1/2) false false false 20 20)
      from rfl, hcore]
  exact C10_unknown_collection cfgW layoutW statsW infraW "Mystery" "k" (1/2) none
    false false false filterW10 (.prim "int") 20 (by decide) (by decide) (by decide)
    (by decide) (by decide) (by norm_num) (by decide) hcall rfl rfl
